import Mathlib

/-!
# Verification of Flake8Lint (Sublime Text plugin), `Flake8Lint.py`

A shallow embedding of the plugin's pure logic:

* `skipLine` — the `skip_line` noqa test;
* `showErrors` — the filtering / deduplication / region-building loop of
  `Flake8LintCommand.show_errors`;
* `runDispatch` — the interpreter / linter-path dispatch and the user-facing
  error dialogs of `Flake8LintCommand.run`;
* `lintOnLoadStep` — the timer-polling logic of
  `Flake8LintBackground._lintOnLoad`;
* `errorsInViewsStep` — the lifecycle of the module-level `ERRORS_IN_VIEWS`
  dictionary.

Text is modelled as `List Char`; the helpers below mirror the Python string
methods the plugin uses (`strip`, `lstrip`, `rstrip`, `lower`, `endswith`,
`split(' ', 1)`, `startswith`).
-/

/-- Python default whitespace characters for `str.strip` and friends
(restricted to the ASCII range, which is all the plugin relies on). -/
def pyIsSpace (c : Char) : Bool :=
  c = ' ' || c = '\t' || c = '\n' || c = '\r' || c = '\x0b' || c = '\x0c'

/-- `str.lstrip()` on a character list. -/
def pyLStrip (l : List Char) : List Char := l.dropWhile pyIsSpace

/-- `str.rstrip()` on a character list. -/
def pyRStrip (l : List Char) : List Char := (l.reverse.dropWhile pyIsSpace).reverse

/-- `str.strip()` on a character list. -/
def pyStrip (l : List Char) : List Char := pyLStrip (pyRStrip l)

/-- A carriage-return or line-feed character, for `str.rstrip('\r\n')`. -/
def isCRLFChar (c : Char) : Bool := c = '\r' || c = '\n'

/-- `str.rstrip('\r\n')` on a character list. -/
def rstripCRLF (l : List Char) : List Char := (l.reverse.dropWhile isCRLFChar).reverse

/-- `str.lower()` on a character list (ASCII lowering, as used on line text). -/
def pyLower (l : List Char) : List Char := l.map Char.toLower

/-- `skip_line(line)` from `Flake8Lint.py`:
`return line.strip().lower().endswith('# noqa')`. -/
def skipLine (line : List Char) : Bool :=
  ("# noqa".toList).isSuffixOf (pyLower (pyStrip line))

/-- `code, _ = error_text.split(' ', 1)` — the first space-separated
component of the error text. -/
def errorCode (text : List Char) : List Char :=
  text.takeWhile (fun c => c ≠ ' ')

/-- A raw lint error tuple `(line, col, text)` as produced by `lint` /
`lint_external`: 1-based line number `e[0]`, column offset `e[1]`,
message text `e[2]` (code followed by a space and the description). -/
structure LintError where
  line : Nat
  col : Nat
  text : List Char
  deriving Repr, DecidableEq

/-- The view's buffer, as the list of its full lines (each including its
trailing newline, as returned by `view.substr(view.full_line(...))`). -/
abbrev ViewLines := List (List Char)

/-- `view.text_point(row, 0)`: offset of the start of a 0-based row. -/
def textPoint (lines : ViewLines) (row : Nat) : Nat :=
  ((lines.take row).map List.length).sum

/-- The settings consulted by `show_errors`:
`select`, `ignore` (already defaulted to `[]` by `or []`),
`highlight`, `popup` and the raw `gutter_marks` value. -/
structure ViewConfig where
  select : List (List Char)
  ignore : List (List Char)
  isHighlight : Bool
  isPopup : Bool
  gutterMarks : List Char
  deriving Repr, DecidableEq

/-- The allowed gutter mark icons:
`('', 'dot', 'circle', 'bookmark', 'cross')`. -/
def allowedMarks : List (List Char) :=
  [[], "dot".toList, "circle".toList, "bookmark".toList, "cross".toList]

/-- `mark = settings.get('gutter_marks', ''); if mark not in (...): mark = ''`. -/
def sanitizeMark (m : List Char) : List Char :=
  if m ∈ allowedMarks then m else []

/-- `u'{0}: {1}'.format(current_line + 1, line_text)` — the second component
of a displayed error entry. -/
def lineMessage (n : Nat) (lineText : List Char) : List Char :=
  (Nat.repr n).toList ++ ':' :: ' ' :: lineText

/-- The accumulators of the `for e in self.errors_list` loop in
`show_errors`: `errors_to_show`, `errors_list_filtered`, `regions`,
`view_errors`. -/
structure LoopState where
  errorsToShow : List (List Char × List Char)
  filtered : List LintError
  regions : List (Nat × Nat)
  viewErrors : List (Nat × List (List Char))
  deriving Repr, DecidableEq

/-- The initial (empty) loop state. -/
def LoopState.init : LoopState := ⟨[], [], [], []⟩

/-- `view_errors.setdefault(current_line, []).append(error_text)`:
append `v` to the entry at key `k`, creating the entry if absent. -/
def setdefaultAppend (d : List (Nat × List (List Char))) (k : Nat)
    (v : List Char) : List (Nat × List (List Char)) :=
  match d with
  | [] => [(k, [v])]
  | (k', vs) :: rest =>
      if k' = k then (k', vs ++ [v]) :: rest
      else (k', vs) :: setdefaultAppend rest k v

/-- The error-region computation of `show_errors` for one error:
`start = text_point + line_length - len(line_text.lstrip())`,
`end = text_point + line_length`, with `line_text = full_line_text.rstrip('\r\n')`,
and for code `'E501'` the override `start = text_point + e[1]`. -/
def codeRegion (lines : ViewLines) (e : LintError) : Nat × Nat :=
  let currentLine := e.line - 1
  let tp := textPoint lines currentLine
  let lineText := rstripCRLF (lines.getD currentLine [])
  let lineLength := lineText.length
  let start := tp + lineLength - (pyLStrip lineText).length
  let start := if errorCode e.text = "E501".toList then tp + e.col else start
  (start, tp + lineLength)

/-- One iteration of the `for e in self.errors_list` loop in `show_errors`.
Each `continue` of the source becomes returning the state unchanged. -/
def processError (cfg : ViewConfig) (lines : ViewLines) (e : LintError)
    (st : LoopState) : LoopState :=
  let currentLine := e.line - 1
  let fullLineText := lines.getD currentLine []
  let lineText := pyStrip fullLineText
  -- skip line if 'noqa' defined
  if skipLine lineText then st
  else
    let code := errorCode e.text
    -- check if user has a setting for select only errors to show
    if !cfg.select.isEmpty && cfg.select.any (fun c => c.isPrefixOf code) then st
    -- check if user has a setting for ignore some errors
    else if !cfg.ignore.isEmpty && cfg.ignore.any (fun c => c.isPrefixOf code) then st
    else
      let error := (e.text, lineMessage (currentLine + 1) lineText)
      -- skip if this error is already found (with pep8 or flake8)
      if error ∈ st.errorsToShow then st
      else
        let st := { st with errorsToShow := st.errorsToShow ++ [error] }
        let st := if cfg.isPopup then { st with filtered := st.filtered ++ [e] } else st
        let st :=
          if cfg.isHighlight || !(sanitizeMark cfg.gutterMarks).isEmpty then
            { st with regions := st.regions ++ [codeRegion lines e] }
          else st
        { st with viewErrors := setdefaultAppend st.viewErrors currentLine e.text }

/-- The whole loop of `show_errors` over the raw errors list. -/
def showErrorsGo (cfg : ViewConfig) (lines : ViewLines) :
    List LintError → LoopState → LoopState
  | [], st => st
  | e :: rest, st => showErrorsGo cfg lines rest (processError cfg lines e st)

/-- The observable outcome of `show_errors`: the four loop results plus the
gutter icon passed to `add_regions` (`some icon` exactly when `add_regions`
is called, i.e. when `is_highlight` or a non-empty sanitized mark). -/
structure ShowResult where
  errorsToShow : List (List Char × List Char)
  errorsListFiltered : List LintError
  regions : List (Nat × Nat)
  viewErrors : List (Nat × List (List Char))
  addRegionsIcon : Option (List Char)
  deriving Repr, DecidableEq

/-- `Flake8LintCommand.show_errors`, as a function of the view settings, the
view's lines and the raw errors list. -/
def showErrors (cfg : ViewConfig) (lines : ViewLines)
    (errs : List LintError) : ShowResult :=
  let mark := sanitizeMark cfg.gutterMarks
  let st := showErrorsGo cfg lines errs LoopState.init
  { errorsToShow := st.errorsToShow
    errorsListFiltered := st.filtered
    regions := st.regions
    viewErrors := st.viewErrors
    addRegionsIcon :=
      if cfg.isHighlight then some mark
      else if !mark.isEmpty then some mark
      else none }

/-- The noqa test as applied by `show_errors` to the line of an error:
`skip_line(full_line_text.strip())`. -/
def noqaSkips (lines : ViewLines) (e : LintError) : Bool :=
  skipLine (pyStrip (lines.getD (e.line - 1) []))

/-- The ignore-filter test of `show_errors`:
`ignore and [c for c in ignore if code.startswith(c)]`. -/
def ignoreSkips (cfg : ViewConfig) (e : LintError) : Bool :=
  !cfg.ignore.isEmpty && cfg.ignore.any (fun c => c.isPrefixOf (errorCode e.text))

/-- The select-filter test of `show_errors`:
`select and [c for c in select if code.startswith(c)]`. -/
def selectSkips (cfg : ViewConfig) (e : LintError) : Bool :=
  !cfg.select.isEmpty && cfg.select.any (fun c => c.isPrefixOf (errorCode e.text))

/-! ## `Flake8LintCommand.run`: dispatch and error dialogs -/

/-- A single-quote character, used inside dialog messages. -/
def squote : String := String.singleton (Char.ofNat 39)

/-- The prefix every user-facing error dialog of the plugin starts with. -/
def dialogPrefix : String := "Python Flake8 Lint error:"

/-- Dialog shown when matching `ignore_files` raises `TypeError` or
`ValueError`. -/
def msgIgnoreFiles : String :=
  "Python Flake8 Lint error:\n" ++ squote ++ "ignore_files" ++ squote ++
    " option is not a list of file masks"

/-- Dialog shown when the configured python interpreter path does not exist. -/
def msgInterpreterNotFound (interp : String) : String :=
  "Python Flake8 Lint error:\npython interpreter " ++ squote ++ interp ++ squote ++
    " is not found"

/-- Dialog shown when `lint.py` is found at neither candidate path. -/
def msgNoPluginPath : String :=
  "Python Flake8 Lint error:\nsorry, can" ++ squote ++ "t find correct plugin path"

/-- `os.path.join` with a single component (separator abstracted as `/`). -/
def joinPath (a b : String) : String := a ++ "/" ++ b

/-- How the lint engine is invoked: in-process `lint(filename, …)` or the
subprocess `lint_external(filename, …, interpreter, linter)`. -/
inductive EngineCall where
  | internal (filename : String)
  | external (filename interpreter linter : String)
  deriving Repr, DecidableEq

/-- The environment `Flake8LintCommand.run` consults after the early
returns for non-file / non-Python / whole-file-noqa views:
the `ignore_files` outcome, the `python_interpreter` setting (`none` when
the key is absent, so `get` falls back to `'auto'`; a stored empty string
models Python falsiness), `os.name == 'nt'`, `os.path.exists`, and the two
directories used to locate `lint.py`. -/
structure RunEnv where
  filename : String
  hasIgnorePatterns : Bool
  ignoreRaises : Bool
  ignoreMatched : Bool
  pythonInterpreter : Option String
  osIsNT : Bool
  pathExists : String → Bool
  flakeDir : String
  packagesPath : String

/-- The `ignore_files` early return: lint is skipped when the patterns are
set, matching did not raise, and some path matched. -/
def runAborts (env : RunEnv) : Bool :=
  env.hasIgnorePatterns && !env.ignoreRaises && env.ignoreMatched

/-- `interpreter = view_settings.get('python_interpreter', 'auto')`. -/
def rawInterpreter (env : RunEnv) : String :=
  env.pythonInterpreter.getD "auto"

/-- `if not interpreter or interpreter == 'internal'`. -/
def useInternal (env : RunEnv) : Bool :=
  rawInterpreter env = "" || rawInterpreter env = "internal"

/-- The interpreter actually passed to `lint_external`:
`'auto'` resolves to `'pythonw'` when `os.name == 'nt'` and `'python'`
otherwise; any other value is passed through. -/
def resolvedInterpreter (env : RunEnv) : String :=
  if rawInterpreter env = "auto" then
    if env.osIsNT then "pythonw" else "python"
  else rawInterpreter env

/-- `linter = os.path.join(FLAKE_DIR, 'lint.py')` — the Package Manager
installation candidate. -/
def linterCand1 (env : RunEnv) : String := joinPath env.flakeDir "lint.py"

/-- `os.path.join(sublime.packages_path(), 'Python Flake8 Lint', 'lint.py')`
— the git installation candidate. -/
def linterCand2 (env : RunEnv) : String :=
  joinPath (joinPath env.packagesPath "Python Flake8 Lint") "lint.py"

/-- The linter path actually passed to `lint_external`: the first candidate
when it exists, otherwise the second (whether or not it exists). -/
def resolvedLinter (env : RunEnv) : String :=
  if !env.pathExists (linterCand1 env) then linterCand2 env else linterCand1 env

/-- Dialogs from the `ignore_files` block: one when matching raised
`TypeError` or `ValueError`. -/
def ignoreDialogs (env : RunEnv) : List String :=
  if env.hasIgnorePatterns && env.ignoreRaises then [msgIgnoreFiles] else []

/-- Dialogs from the interpreter check: the `elif not os.path.exists(...)`
branch runs only when the setting is not `'auto'`. -/
def interpDialogs (env : RunEnv) : List String :=
  if rawInterpreter env = "auto" then []
  else if !env.pathExists (rawInterpreter env) then
    [msgInterpreterNotFound (rawInterpreter env)]
  else []

/-- Dialog shown when the resolved linter path still does not exist. -/
def linterDialogs (env : RunEnv) : List String :=
  if !env.pathExists (resolvedLinter env) then [msgNoPluginPath] else []

/-- The dispatch part of `Flake8LintCommand.run` (lines 183–243): returns
the error dialogs shown, in order, and the engine invocation (or `none`
when the run returned early because of `ignore_files`).

Faithful details: the `except (TypeError, ValueError)` branch shows a
dialog but does not return; the missing-interpreter and missing-linter
dialogs likewise fall through to the `lint_external` call. -/
def runDispatch (env : RunEnv) : List String × Option EngineCall :=
  if runAborts env then
    (ignoreDialogs env, none)
  else if useInternal env then
    (ignoreDialogs env, some (.internal env.filename))
  else
    (ignoreDialogs env ++ interpDialogs env ++ linterDialogs env,
      some (.external env.filename (resolvedInterpreter env) (resolvedLinter env)))

/-! ## `Flake8LintBackground._lintOnLoad`: timer-based polling -/

/-- What one call of `_lintOnLoad` does: re-arm the timer
(`sublime.set_timeout(..., delayMs)`), give up silently, or run the
`flake8_lint` command. -/
inductive LintOnLoadAction where
  | rearm (delayMs : Nat)
  | skip
  | runLint
  deriving Repr, DecidableEq

/-- The view state `_lintOnLoad` observes: `view.is_loading()`, whether
`view.window()` is non-`None`, the id of the window's active view, and the
view's own id. -/
structure LoadViewState where
  isLoading : Bool
  windowInit : Bool
  activeViewId : Nat
  viewId : Nat
  deriving Repr, DecidableEq

/-- One call of `Flake8LintBackground._lintOnLoad(view, retry)`. -/
def lintOnLoadStep (retry : Bool) (v : LoadViewState) : LintOnLoadAction :=
  if !retry then .rearm 100
  else if v.isLoading then .rearm 100
  else if !v.windowInit then .rearm 100
  else if v.activeViewId ≠ v.viewId then .skip
  else .runLint

/-! ## `ERRORS_IN_VIEWS` lifecycle -/

/-- The value stored per view in `ERRORS_IN_VIEWS`: errors keyed by
0-based line number, as built by `show_errors`. -/
abbrev ViewErrorsDict := List (Nat × List (List Char))

/-- The module-level `ERRORS_IN_VIEWS` dictionary, keyed by `view.id()`. -/
abbrev ErrorsInViews := List (Nat × ViewErrorsDict)

/-- Python dict assignment `d[k] = v`: replace the entry at `k`, or add it. -/
def setAssoc (d : ErrorsInViews) (k : Nat) (v : ViewErrorsDict) : ErrorsInViews :=
  match d with
  | [] => [(k, v)]
  | (k', v') :: rest =>
      if k' = k then (k, v) :: rest else (k', v') :: setAssoc rest k v

/-- The events that could touch `ERRORS_IN_VIEWS`: a lint run reaching
`show_errors` (which executes `ERRORS_IN_VIEWS[self.view.id()] = view_errors`
on line 332), and the closing of a view. -/
inductive ViewEvent where
  | lintShow (viewId : Nat) (viewErrors : ViewErrorsDict)
  | viewClosed (viewId : Nat)
  deriving Repr, DecidableEq

/-- How `ERRORS_IN_VIEWS` evolves under an event. The only write in
`Flake8Lint.py` is the assignment in `show_errors`; `Flake8LintBackground`
registers `on_load`, `on_post_save` and `on_selection_modified` but no
close handler, so closing a view leaves the dictionary unchanged. -/
def errorsInViewsStep (ev : ViewEvent) (d : ErrorsInViews) : ErrorsInViews :=
  match ev with
  | .lintShow viewId viewErrors => setAssoc d viewId viewErrors
  | .viewClosed _ => d

/-- The highlight region as the specification describes it: from the line's
first non-whitespace character to the end of the line excluding the trailing
newline, except that for code `'E501'` it starts at the error's reported
column offset. Stated from the spec's words, for comparison with
`codeRegion`. -/
def specRegion (lines : ViewLines) (e : LintError) : Nat × Nat :=
  let tp := textPoint lines (e.line - 1)
  let content := rstripCRLF (lines.getD (e.line - 1) [])
  let start :=
    if errorCode e.text = "E501".toList then tp + e.col
    else tp + (content.takeWhile pyIsSpace).length
  (start, tp + content.length)

/-! ## Helper lemmas -/

theorem length_sub_dropWhile (p : Char → Bool) (l : List Char) :
    l.length - (l.dropWhile p).length = (l.takeWhile p).length := by
  have h := congrArg List.length (List.takeWhile_append_dropWhile (p := p) (l := l))
  rw [List.length_append] at h
  omega

theorem dropWhile_length_le (p : Char → Bool) (l : List Char) :
    (l.dropWhile p).length ≤ l.length := by
  have h := congrArg List.length (List.takeWhile_append_dropWhile (p := p) (l := l))
  rw [List.length_append] at h
  omega

theorem strAppendAssoc (a b c : String) : a ++ b ++ c = a ++ (b ++ c) := by
  cases a with
  | mk da =>
    cases b with
    | mk db =>
      cases c with
      | mk dc =>
        show String.mk (da ++ db ++ dc) = String.mk (da ++ (db ++ dc))
        rw [List.append_assoc]

/-- If an error fails the noqa, select or ignore test, the loop body of
`show_errors` leaves the state unchanged (`continue`). -/
theorem processError_of_skips (cfg : ViewConfig) (lines : ViewLines)
    (e : LintError)
    (h : noqaSkips lines e = true ∨ selectSkips cfg e = true ∨
      ignoreSkips cfg e = true)
    (st : LoopState) : processError cfg lines e st = st := by
  unfold noqaSkips selectSkips ignoreSkips at h
  simp only [processError]
  split
  · rfl
  next h1 =>
    split
    · rfl
    next h2 =>
      split
      · rfl
      next h3 =>
        rcases h with h | h | h
        · exact absurd h h1
        · exact absurd h h2
        · exact absurd h h3

/-- Filtering out errors on which the loop body is the identity does not
change the result of the loop. -/
theorem showErrorsGo_filter (cfg : ViewConfig) (lines : ViewLines)
    (p : LintError → Bool)
    (H : ∀ e, p e = false → ∀ st, processError cfg lines e st = st) :
    ∀ (errs : List LintError) (st : LoopState),
      showErrorsGo cfg lines errs st =
        showErrorsGo cfg lines (errs.filter p) st := by
  intro errs
  induction errs with
  | nil => intro st; rfl
  | cons e rest ih =>
    intro st
    by_cases hp : p e = true
    · simp only [showErrorsGo, List.filter_cons, hp, if_pos]
      exact ih (processError cfg lines e st)
    · have hf : p e = false := by simpa using hp
      simp only [showErrorsGo, List.filter_cons, hf, Bool.false_eq_true,
        if_neg, H e hf st]
      exact ih st

/-- The `errors_to_show` accumulator either stays unchanged or grows by one
entry that was not yet present. -/
theorem processError_errorsToShow (cfg : ViewConfig) (lines : ViewLines)
    (e : LintError) (st : LoopState) :
    (processError cfg lines e st).errorsToShow = st.errorsToShow ∨
      ∃ err, err ∉ st.errorsToShow ∧
        (processError cfg lines e st).errorsToShow =
          st.errorsToShow ++ [err] := by
  simp only [processError]
  split
  · left; rfl
  split
  · left; rfl
  split
  · left; rfl
  split
  · left; rfl
  next h4 =>
    right
    refine ⟨_, h4, ?_⟩
    simp only [apply_ite (f := LoopState.errorsToShow)]
    split <;> split <;> rfl

theorem processError_nodup (cfg : ViewConfig) (lines : ViewLines)
    (e : LintError) (st : LoopState) (h : st.errorsToShow.Nodup) :
    (processError cfg lines e st).errorsToShow.Nodup := by
  rcases processError_errorsToShow cfg lines e st with heq | ⟨err, hmem, heq⟩
  · rw [heq]; exact h
  · rw [heq]
    simp [List.nodup_append, h, hmem]

/-- The loop of `show_errors` preserves distinctness of `errors_to_show`. -/
theorem showErrorsGo_nodup (cfg : ViewConfig) (lines : ViewLines) :
    ∀ (errs : List LintError) (st : LoopState), st.errorsToShow.Nodup →
      (showErrorsGo cfg lines errs st).errorsToShow.Nodup := by
  intro errs
  induction errs with
  | nil => intro st h; exact h
  | cons e rest ih =>
    intro st h
    exact ih (processError cfg lines e st) (processError_nodup cfg lines e st h)

/-- Python dict assignment makes lookup return the new value, whatever was
stored before. -/
theorem lookup_setAssoc (d : ErrorsInViews) (k : Nat) (v : ViewErrorsDict) :
    List.lookup k (setAssoc d k v) = some v := by
  induction d with
  | nil => simp [setAssoc, List.lookup]
  | cons kv rest ih =>
    obtain ⟨k', v'⟩ := kv
    by_cases h : k' = k
    · simp [setAssoc, h, List.lookup]
    · have hbeq : (k == k') = false := by
        simp [Ne.symm h]
      simp [setAssoc, h, List.lookup, hbeq, ih]

/-- The sanitized gutter mark is always one of the allowed icons. -/
theorem sanitizeMark_mem (m : List Char) : sanitizeMark m ∈ allowedMarks := by
  unfold sanitizeMark
  split
  · assumption
  · simp [allowedMarks]

/-- A gutter mark outside the allowed set is replaced by the empty icon. -/
theorem sanitizeMark_not_mem (m : List Char) (h : m ∉ allowedMarks) :
    sanitizeMark m = [] := by
  unfold sanitizeMark
  rw [if_neg h]

/-- The first projection of `runDispatch`: the dialogs shown. -/
theorem runDispatch_fst (env : RunEnv) :
    (runDispatch env).1 =
      if runAborts env = true then ignoreDialogs env
      else if useInternal env = true then ignoreDialogs env
      else ignoreDialogs env ++ interpDialogs env ++ linterDialogs env := by
  unfold runDispatch
  split
  · rfl
  · split <;> rfl

/-- The second projection of `runDispatch`: the engine invocation. -/
theorem runDispatch_snd (env : RunEnv) :
    (runDispatch env).2 =
      if runAborts env = true then none
      else if useInternal env = true then some (.internal env.filename)
      else some (.external env.filename (resolvedInterpreter env)
        (resolvedLinter env)) := by
  unfold runDispatch
  split
  · rfl
  · split <;> rfl

theorem mem_ignoreDialogs {env : RunEnv} {d : String}
    (h : d ∈ ignoreDialogs env) : d = msgIgnoreFiles := by
  unfold ignoreDialogs at h
  split at h
  · simpa using h
  · simp at h

theorem mem_interpDialogs {env : RunEnv} {d : String}
    (h : d ∈ interpDialogs env) :
    d = msgInterpreterNotFound (rawInterpreter env) := by
  unfold interpDialogs at h
  split at h
  · simp at h
  · split at h
    · simpa using h
    · simp at h

theorem mem_linterDialogs {env : RunEnv} {d : String}
    (h : d ∈ linterDialogs env) : d = msgNoPluginPath := by
  unfold linterDialogs at h
  split at h
  · simpa using h
  · simp at h

theorem msgIgnoreFiles_prefixed : ∃ t, msgIgnoreFiles = dialogPrefix ++ t :=
  ⟨"\n" ++ squote ++ "ignore_files" ++ squote ++
    " option is not a list of file masks", by decide⟩

theorem msgInterpreterNotFound_prefixed (i : String) :
    ∃ t, msgInterpreterNotFound i = dialogPrefix ++ t := by
  refine ⟨"\npython interpreter " ++ squote ++ i ++ squote ++
    " is not found", ?_⟩
  have h0 : ("Python Flake8 Lint error:\npython interpreter " : String) =
      dialogPrefix ++ "\npython interpreter " := by decide
  simp only [msgInterpreterNotFound]
  rw [h0]
  simp only [strAppendAssoc]

theorem msgNoPluginPath_prefixed : ∃ t, msgNoPluginPath = dialogPrefix ++ t :=
  ⟨"\nsorry, can" ++ squote ++ "t find correct plugin path", by decide⟩

/-! ## Claim theorems -/

/-- C1 (code evaluation at the failing input): with `select = ['E']` the
error `E501` — whose code starts with the selected prefix `'E'` — is *not*
shown, while `W291` — whose code matches no select prefix — *is* shown.
The `continue` on a select match inverts the documented "select only
errors to show" semantics. -/
theorem select_filter_inverted :
    selectSkips
        { select := ["E".toList], ignore := [], isHighlight := false,
          isPopup := true, gutterMarks := [] }
        ⟨1, 0, "E501 line too long (88 > 79 characters)".toList⟩ = true ∧
    showErrors
        { select := ["E".toList], ignore := [], isHighlight := false,
          isPopup := true, gutterMarks := [] }
        ["x = 1\n".toList]
        [⟨1, 0, "E501 line too long (88 > 79 characters)".toList⟩,
          ⟨1, 0, "W291 trailing whitespace".toList⟩] =
      { errorsToShow :=
          [("W291 trailing whitespace".toList, "1: x = 1".toList)]
        errorsListFiltered := [⟨1, 0, "W291 trailing whitespace".toList⟩]
        regions := []
        viewErrors := [(0, ["W291 trailing whitespace".toList])]
        addRegionsIcon := none } := by
  constructor
  · decide
  · decide

/-- C2: an error whose line, stripped and lowercased, ends with `'# noqa'`
is completely suppressed: the outcome of `show_errors` (quick-panel list,
filtered list, regions, per-view error dict, gutter call) is the same as if
the error had not been reported at all. -/
theorem noqa_errors_suppressed (cfg : ViewConfig) (lines : ViewLines)
    (errs : List LintError) :
    showErrors cfg lines errs =
      showErrors cfg lines (errs.filter fun e => !noqaSkips lines e) := by
  have H : ∀ e, (fun e => !noqaSkips lines e) e = false →
      ∀ st, processError cfg lines e st = st := by
    intro e he st
    refine processError_of_skips cfg lines e (Or.inl ?_) st
    simpa using he
  simp only [showErrors]
  rw [showErrorsGo_filter cfg lines _ H errs LoopState.init]

/-- C3: the displayed error list built by `show_errors` never contains two
equal entries — a duplicate `[error_text, 'line: text']` pair is appended
only once. -/
theorem displayed_errors_nodup (cfg : ViewConfig) (lines : ViewLines)
    (errs : List LintError) :
    (showErrors cfg lines errs).errorsToShow.Nodup :=
  showErrorsGo_nodup cfg lines errs LoopState.init List.nodup_nil

/-- C4 (counterexample): closing a view does *not* remove its
`ERRORS_IN_VIEWS` entry — no close handler exists, so after a
`viewClosed` event for view `1` its errors are still stored. -/
theorem errorsInViews_not_removed_on_close :
    errorsInViewsStep (.viewClosed 1)
        [(1, [(0, ["E501 line too long (88 > 79 characters)".toList])])] =
      [(1, [(0, ["E501 line too long (88 > 79 characters)".toList])])] ∧
    List.lookup 1
        (errorsInViewsStep (.viewClosed 1)
          [(1, [(0, ["E501 line too long (88 > 79 characters)".toList])])]) =
      some [(0, ["E501 line too long (88 > 79 characters)".toList])] :=
  ⟨rfl, by decide⟩

/-- C4 (amended): a lint run that shows errors fully replaces the view's
`ERRORS_IN_VIEWS` entry — the stored value is the newly computed dictionary
regardless of what was stored before — and a view-close event leaves the
dictionary unchanged (the plugin registers no close handler). -/
theorem errorsInViews_lifecycle (d : ErrorsInViews) (k j : Nat)
    (v : ViewErrorsDict) :
    List.lookup k (errorsInViewsStep (.lintShow k v) d) = some v ∧
      errorsInViewsStep (.viewClosed j) d = d :=
  ⟨lookup_setAssoc d k v, rfl⟩

/-- C5: an error whose code starts with a prefix of the non-empty `ignore`
list is completely suppressed: the outcome of `show_errors` is the same as
if the error had not been reported at all. -/
theorem ignored_errors_suppressed (cfg : ViewConfig) (lines : ViewLines)
    (errs : List LintError) :
    showErrors cfg lines errs =
      showErrors cfg lines (errs.filter fun e => !ignoreSkips cfg e) := by
  have H : ∀ e, (fun e => !ignoreSkips cfg e) e = false →
      ∀ st, processError cfg lines e st = st := by
    intro e he st
    refine processError_of_skips cfg lines e (Or.inr (Or.inr ?_)) st
    simpa using he
  simp only [showErrors]
  rw [showErrorsGo_filter cfg lines _ H errs LoopState.init]

/-- C6: `_lintOnLoad` runs the lint command exactly when it is a retry call
on a view that finished loading, whose window is initialized and which is
still the window's active view; it re-arms the 100 ms timer exactly on the
first call or while the view is loading or its window uninitialized; and it
does nothing exactly when the ready view is no longer active. -/
theorem lintOnLoad_behavior (retry : Bool) (v : LoadViewState) :
    (lintOnLoadStep retry v = .runLint ↔
      retry = true ∧ v.isLoading = false ∧ v.windowInit = true ∧
        v.activeViewId = v.viewId) ∧
    (lintOnLoadStep retry v = .rearm 100 ↔
      retry = false ∨ v.isLoading = true ∨ v.windowInit = false) ∧
    (lintOnLoadStep retry v = .skip ↔
      retry = true ∧ v.isLoading = false ∧ v.windowInit = true ∧
        v.activeViewId ≠ v.viewId) := by
  obtain ⟨L, W, a, i⟩ := v
  cases retry <;> cases L <;> cases W <;> by_cases hA : a = i <;>
    simp_all [lintOnLoadStep]

/-- C7: the plugin shows a user-facing error dialog when the `ignore_files`
matching raises `TypeError`/`ValueError`, when the configured interpreter
path does not exist, and when `lint.py` is found at neither candidate path;
every dialog message begins with `'Python Flake8 Lint error:'`. -/
theorem run_error_dialogs (env : RunEnv) :
    (∀ d ∈ (runDispatch env).1, ∃ t, d = dialogPrefix ++ t) ∧
    (env.hasIgnorePatterns = true → env.ignoreRaises = true →
      msgIgnoreFiles ∈ (runDispatch env).1) ∧
    (runAborts env = false → useInternal env = false →
      rawInterpreter env ≠ "auto" →
      env.pathExists (rawInterpreter env) = false →
      msgInterpreterNotFound (rawInterpreter env) ∈ (runDispatch env).1) ∧
    (runAborts env = false → useInternal env = false →
      env.pathExists (linterCand1 env) = false →
      env.pathExists (linterCand2 env) = false →
      msgNoPluginPath ∈ (runDispatch env).1) := by
  refine ⟨?_, ?_, ?_, ?_⟩
  · intro d hd
    rw [runDispatch_fst] at hd
    split at hd
    · rw [mem_ignoreDialogs hd]; exact msgIgnoreFiles_prefixed
    · split at hd
      · rw [mem_ignoreDialogs hd]; exact msgIgnoreFiles_prefixed
      · rcases List.mem_append.1 hd with hd | hd
        · rcases List.mem_append.1 hd with hd | hd
          · rw [mem_ignoreDialogs hd]; exact msgIgnoreFiles_prefixed
          · rw [mem_interpDialogs hd]; exact msgInterpreterNotFound_prefixed _
        · rw [mem_linterDialogs hd]; exact msgNoPluginPath_prefixed
  · intro h1 h2
    have hig : msgIgnoreFiles ∈ ignoreDialogs env := by
      unfold ignoreDialogs
      rw [if_pos (by simp [h1, h2])]
      simp
    rw [runDispatch_fst]
    split
    · exact hig
    · split
      · exact hig
      · exact List.mem_append.2 (Or.inl (List.mem_append.2 (Or.inl hig)))
  · intro hA hI hauto hpe
    rw [runDispatch_fst, if_neg (by simp [hA]), if_neg (by simp [hI])]
    have him : msgInterpreterNotFound (rawInterpreter env) ∈
        interpDialogs env := by
      unfold interpDialogs
      rw [if_neg hauto, if_pos (by simp [hpe])]
      simp
    exact List.mem_append.2 (Or.inl (List.mem_append.2 (Or.inr him)))
  · intro hA hI h1 h2
    rw [runDispatch_fst, if_neg (by simp [hA]), if_neg (by simp [hI])]
    have hlm : msgNoPluginPath ∈ linterDialogs env := by
      unfold linterDialogs
      have hrl : resolvedLinter env = linterCand2 env := by
        unfold resolvedLinter
        rw [if_pos (by simp [h1])]
      rw [hrl, if_pos (by simp [h2])]
      simp
    exact List.mem_append.2 (Or.inr hlm)

/-- An environment in which all three dialog conditions hold at once:
`ignore_files` matching raises, the configured interpreter is missing and
`lint.py` exists at neither candidate path. -/
def envAllFail : RunEnv :=
  { filename := "/tmp/module.py", hasIgnorePatterns := true,
    ignoreRaises := true, ignoreMatched := false,
    pythonInterpreter := some "/missing/python", osIsNT := false,
    pathExists := fun _ => false, flakeDir := "/plugins/Flake8Lint",
    packagesPath := "/packages" }

/-- C7 witness: all three dialogs are shown in `envAllFail`. -/
theorem run_error_dialogs_witness :
    msgIgnoreFiles ∈ (runDispatch envAllFail).1 ∧
    msgInterpreterNotFound (rawInterpreter envAllFail) ∈
      (runDispatch envAllFail).1 ∧
    msgNoPluginPath ∈ (runDispatch envAllFail).1 := by
  have h := run_error_dialogs envAllFail
  exact ⟨h.2.1 rfl rfl,
    h.2.2.1 (by decide) (by decide) (by decide) rfl,
    h.2.2.2 (by decide) (by decide) rfl rfl⟩

/-- C8: when a lint run reaches the engine, it is invoked in-process exactly
when the `python_interpreter` setting is empty/falsy or `'internal'`;
otherwise it goes through `lint_external`, with `'auto'` resolved to
`'pythonw'` on Windows and `'python'` elsewhere. -/
theorem engine_dispatch (env : RunEnv) (hA : runAborts env = false) :
    ((runDispatch env).2 = some (.internal env.filename) ↔
      rawInterpreter env = "" ∨ rawInterpreter env = "internal") ∧
    (¬(rawInterpreter env = "" ∨ rawInterpreter env = "internal") →
      (runDispatch env).2 =
        some (.external env.filename (resolvedInterpreter env)
          (resolvedLinter env))) ∧
    (rawInterpreter env = "auto" →
      resolvedInterpreter env = if env.osIsNT then "pythonw" else "python") := by
  rw [runDispatch_snd, if_neg (by simp [hA])]
  refine ⟨?_, ?_, ?_⟩
  · by_cases hI : useInternal env = true
    · rw [if_pos hI]
      simp only [useInternal, Bool.or_eq_true, decide_eq_true_eq] at hI
      simpa using hI
    · rw [if_neg hI]
      simp only [useInternal, Bool.or_eq_true, decide_eq_true_eq] at hI
      simp [hI]
  · intro hni
    rw [if_neg (by simp only [useInternal, Bool.or_eq_true,
      decide_eq_true_eq]; exact hni)]
  · intro ha
    unfold resolvedInterpreter
    rw [if_pos ha]

/-- An environment with the interpreter setting absent, resolving to
`'auto'`, on a non-Windows host where the first `lint.py` candidate exists. -/
def envAuto : RunEnv :=
  { filename := "/tmp/module.py", hasIgnorePatterns := false,
    ignoreRaises := false, ignoreMatched := false,
    pythonInterpreter := none, osIsNT := false,
    pathExists := fun _ => true, flakeDir := "/plugins/Flake8Lint",
    packagesPath := "/packages" }

/-- C8 witness: in `envAuto` the engine is the external `'python'`
subprocess with the Package Manager linter path. -/
theorem engine_dispatch_witness :
    (runDispatch envAuto).2 =
      some (.external "/tmp/module.py" "python"
        "/plugins/Flake8Lint/lint.py") := by
  have h := (engine_dispatch envAuto rfl).2.1 (by decide)
  rw [h]
  decide

/-- C9: the region built by `show_errors` for an error spans from the
line's first non-whitespace character to the end of the line excluding the
trailing newline, except that for code `'E501'` it starts at the error's
reported column offset. -/
theorem codeRegion_matches_spec (lines : ViewLines) (e : LintError) :
    codeRegion lines e = specRegion lines e := by
  simp only [codeRegion, specRegion]
  have h := length_sub_dropWhile pyIsSpace (rstripCRLF (lines.getD (e.line - 1) []))
  have h2 := dropWhile_length_le pyIsSpace (rstripCRLF (lines.getD (e.line - 1) []))
  by_cases hc : errorCode e.text = "E501".toList
  · simp [hc]
  · simp only [if_neg hc, Prod.mk.injEq, pyLStrip] at *
    exact ⟨by omega, trivial⟩

/-- C10: the gutter icon passed to `add_regions` is always one of
`''`, `'dot'`, `'circle'`, `'bookmark'`, `'cross'`; any other value of the
`gutter_marks` setting is replaced by `''` before use. -/
theorem gutter_icon_sanitized (cfg : ViewConfig) (lines : ViewLines)
    (errs : List LintError) (icon : List Char)
    (h : (showErrors cfg lines errs).addRegionsIcon = some icon) :
    icon ∈ allowedMarks ∧ (cfg.gutterMarks ∉ allowedMarks → icon = []) := by
  have h' : (if cfg.isHighlight then some (sanitizeMark cfg.gutterMarks)
      else if !(sanitizeMark cfg.gutterMarks).isEmpty then
        some (sanitizeMark cfg.gutterMarks)
      else none) = some icon := h
  have hicon : icon = sanitizeMark cfg.gutterMarks := by
    split at h'
    · exact (Option.some.inj h').symm
    · split at h'
      · exact (Option.some.inj h').symm
      · cases h'
  subst hicon
  exact ⟨sanitizeMark_mem _, fun hm => sanitizeMark_not_mem _ hm⟩

/-- C10 witness: with `gutter_marks = 'star'` and highlighting on, the icon
passed to `add_regions` is the sanitized empty icon, one of the allowed
values. -/
theorem gutter_icon_sanitized_witness :
    ([] : List Char) ∈ allowedMarks ∧ ([] : List Char) = [] := by
  have h := gutter_icon_sanitized
    { select := [], ignore := [], isHighlight := true, isPopup := false,
      gutterMarks := "star".toList } [] [] [] (by decide)
  exact ⟨h.1, h.2 (by decide)⟩
